import Mathlib

/-!
Verification of `delegate.hpp`: a non-owning, type-erased callable reference.

The C++ type `delegate<R(Args...)>` is two words: a `void* obj` (the opaque
reference to the bound object, null for the empty state and for compile-time
bindings) and a thunk pointer `f` of type `R(*)(void*, Args&...)` (null only
in the empty state).  We model pointers as `Nat`, with `0` the null pointer.

Invocation (`operator()`, line 114 of the source) is `return f(obj, args...)`
with no checks.  We model run-time behaviour with an explicit code memory
`Code O A R` mapping function-pointer values to thunk bodies; a thunk body
reads and writes a heap `Heap O` of objects of type `O`, takes the argument
tuple `A` and produces a result `R`.  Calling a pointer that designates no
code — in particular the null pointer of an empty delegate — has no defined
outcome, which the model renders as `none`.

The four binding macros `BIND1`, `BIND2`, `CBIND1`, `CBIND2` (lines 330-412)
populate the two words: the `BIND` forms store the bound object's address and
a pointer to a freshly synthesized thunk lambda; the `CBIND` forms store a
null `obj` and the thunk pointer only.  Each textual expansion of a macro
creates its own lambda closure type, hence its own thunk function with its
own address; re-evaluating one and the same expansion site yields the same
thunk address.  In the model a binding therefore takes the bound object's
address and the expansion site's thunk address as data.
-/

/-- The two-word representation of `delegate<R(Args...)>` (lines 102-126):
`obj` is the `void*` reference slot, `f` the thunk-pointer slot.  Pointers are
modelled as `Nat`; `0` is the null pointer. -/
structure Delegate where
  obj : Nat
  f : Nat
deriving DecidableEq, Repr

/-- `delegate() noexcept : obj{}, f{}` (line 110): the default-constructed,
empty delegate has both words null. -/
def Delegate.empty : Delegate := ⟨0, 0⟩

/-- `explicit operator bool() const noexcept { return f; }` (line 116): the
validity check converts the thunk pointer to `bool`, i.e. tests `f` against
null; the `obj` word is not consulted. -/
def Delegate.isValid (d : Delegate) : Bool := d.f != 0

/-- `operator==(delegate x, delegate y) { return x.obj == y.obj && x.f == y.f; }`
(line 118): pointer identity on both words. -/
def Delegate.beq (x y : Delegate) : Bool := x.obj == y.obj && x.f == y.f

/-- `std::hash<delegate<F>>::operator()` (lines 133-147): with
`k = (uintptr_t)d.obj` and `h = (uintptr_t)d.f`, compute
`k ^= h + C + (k << 6) + (k >> 2)` and return `k`, where the constant `C` is
`0x517cc1b727220a95` when `sizeof(size_t) >= 8` and `0x9e3779b9` otherwise.
`wordBytes` is `sizeof(size_t)`; unsigned arithmetic is modulo
`2 ^ (8 * wordBytes)`, with `k << 6` as `k * 64` and `k >> 2` as `k / 4`. -/
def hashDelegate (wordBytes : Nat) (d : Delegate) : Nat :=
  let m := 2 ^ (8 * wordBytes)
  let k := d.obj % m
  let h := d.f % m
  if 8 ≤ wordBytes then
    Nat.xor k ((h + 0x517cc1b727220a95 + k * 64 + k / 4) % m)
  else
    Nat.xor k ((h + 0x9e3779b9 + k * 64 + k / 4) % m)

/-- Program data memory: an object state of type `O` at every address. -/
def Heap (O : Type) := Nat → O

/-- Writing the object `o` back through the lvalue at address `p`. -/
def updateHeap {O : Type} (hp : Heap O) (p : Nat) (o : O) : Heap O :=
  fun q => if q = p then o else hp q

/-- A thunk body of the erased dispatch signature `R(void*, Args&...)`
(line 105): it receives the `void*` slot and the arguments, may mutate the
heap through the recovered reference, and produces an `R`. -/
def ThunkFun (O A R : Type) := Nat → Heap O → A → Heap O × R

/-- Program code memory: which thunk body, if any, a function-pointer value
designates.  The null pointer `0` and garbage values designate none. -/
def Code (O A R : Type) := Nat → Option (ThunkFun O A R)

/-- `R operator()(Args... args) { return f(obj, args...); }` (line 114): the
call path performs exactly the indirect call `f(obj, args...)` and nothing
else.  Calling a pointer that designates no code — in particular the null `f`
of an empty delegate — is undefined behaviour, rendered as `none`. -/
def Delegate.invoke {O A R : Type} (code : Code O A R) (d : Delegate)
    (hp : Heap O) (a : A) : Option (Heap O × R) :=
  match code d.f with
  | some t => some (t d.obj hp a)
  | none => none

/-- `h(); h();` — two sequential invocations of one delegate. -/
def invokeTwice {O A R : Type} (code : Code O A R) (d : Delegate)
    (hp : Heap O) (a : A) : Option (Heap O × R) :=
  match Delegate.invoke code d hp a with
  | some s => Delegate.invoke code d s.1 a
  | none => none

/-- The direct call `o(args...)` on the lvalue object stored at address `p`:
`callOp` is the bound type's call operator, which may mutate the object and
returns an `R`; the mutation happens through the lvalue, i.e. is written back
to `p`. -/
def directCall {O A R : Type} (callOp : O → A → O × R) (p : Nat)
    (hp : Heap O) (a : A) : Heap O × R :=
  let res := callOp (hp p) a
  (updateHeap hp p res.1, res.2)

/-- The thunk `BIND1(obj)` synthesizes, non-void branch (lines 343-350):
`auto& o = *(decltype(objp))p; return o(args...);` — recover the lvalue at
the passed address and forward the call. -/
def thunk1 {O A R : Type} (callOp : O → A → O × R) : ThunkFun O A R :=
  fun p hp a =>
    let o := hp p
    let res := callOp o a
    (updateHeap hp p res.1, res.2)

/-- The thunk `BIND2(obj, memfn)` synthesizes, non-void branch
(lines 363-371): `auto& o = *(decltype(objp))p; return o.memfn(args...);` —
`memOp` is the member function selected by the macro's second argument. -/
def thunk2 {O A R : Type} (memOp : O → A → O × R) : ThunkFun O A R :=
  fun p hp a =>
    let o := hp p
    let res := memOp o a
    (updateHeap hp p res.1, res.2)

/-- The thunk `BIND1(obj)` synthesizes when the delegate's declared result is
`void` (the `is_void_v<R>` branch, line 346-347): `o(args...);` — the target
is called once and its own result, of the target's own type `R0`, is
discarded. -/
def thunk1Void {O A R0 : Type} (callOp : O → A → O × R0) : ThunkFun O A Unit :=
  fun p hp a =>
    let o := hp p
    let res := callOp o a
    (updateHeap hp p res.1, ())

/-- The `void`-result thunk of `BIND2(obj, memfn)` (lines 366-367):
`o.memfn(args...);`, result discarded. -/
def thunk2Void {O A R0 : Type} (memOp : O → A → O × R0) : ThunkFun O A Unit :=
  fun p hp a =>
    let o := hp p
    let res := memOp o a
    (updateHeap hp p res.1, ())

/-- The thunk `CBIND1(obj)` synthesizes, non-void branch (lines 384-389): the
`void*` slot is ignored and the compile-time-fixed callable `g` is invoked
directly inside the thunk body. -/
def cthunk1 {O A R : Type} (g : A → R) : ThunkFun O A R :=
  fun _ hp a => (hp, g a)

/-- The `void`-result thunk of `CBIND1(obj)` (line 386-387): `obj(args...);`,
result discarded. -/
def cthunk1Void {O A R0 : Type} (g : A → R0) : ThunkFun O A Unit :=
  fun _ hp a =>
    let _ := g a
    (hp, ())

/-- The `void`-result thunk of `CBIND2(obj, memfn)` (lines 405-406):
`obj.memfn(args...);` with `obj` a compile-time constant, result discarded. -/
def cthunk2Void {O A R0 : Type} (g : A → R0) : ThunkFun O A Unit :=
  fun _ hp a =>
    let _ := g a
    (hp, ())

/-- `BIND1(obj)` (lines 330-352): the produced delegate is
`Delegate{tag, (void*)objp, thunk}` — `p` is the bound object's address
(`objp = &obj`), `tf` the function-pointer value the compiler assigns the
expansion site's thunk lambda. -/
def bind1 (p tf : Nat) : Delegate := ⟨p, tf⟩

/-- `BIND2(obj, memfn)` (lines 354-373): same two words as `BIND1`, with the
thunk at `tf` calling the named member. -/
def bind2 (p tf : Nat) : Delegate := ⟨p, tf⟩

/-- `CBIND1(obj)` (lines 375-392): the produced delegate is
`Delegate{tag, nullptr, thunk}` — the reference word is null, only the thunk
pointer `tf` is set. -/
def cbind1 (tf : Nat) : Delegate := ⟨0, tf⟩

/-- `CBIND2(obj, memfn)` (lines 394-412): null reference word, thunk pointer
`tf`. -/
def cbind2 (tf : Nat) : Delegate := ⟨0, tf⟩

/-- The delegate values reachable through the public interface: default
construction or one of the four binding macros.  In C++ the address of an
lvalue (`&obj`) is never null and a lambda's function pointer is never null,
hence the nonzero side conditions on the captured addresses. -/
inductive Reachable : Delegate → Prop where
  | ofDefault : Reachable Delegate.empty
  | ofBind1 (p tf : Nat) : p ≠ 0 → tf ≠ 0 → Reachable (bind1 p tf)
  | ofBind2 (p tf : Nat) : p ≠ 0 → tf ≠ 0 → Reachable (bind2 p tf)
  | ofCbind1 (tf : Nat) : tf ≠ 0 → Reachable (cbind1 tf)
  | ofCbind2 (tf : Nat) : tf ≠ 0 → Reachable (cbind2 tf)

/-- All-zero initial heap for the concrete scenarios. -/
def heapZero : Heap Nat := fun _ => 0

/-- A concrete call operator for witnesses: `operator()(int a)` adds `a` to
the object's state and returns the old state. -/
def addOp : Nat → Nat → Nat × Nat := fun n a => (n + a, n)

/-- A concrete member function for witnesses: multiplies the object's state
by the argument and returns the argument. -/
def mulOp : Nat → Nat → Nat × Nat := fun n a => (n * a, a)

/-- Code memory for the C1 witness: address 1 holds a `BIND1` thunk for
`addOp`, address 2 a `BIND2` thunk for `mulOp`. -/
def code1w : Code Nat Nat Nat := fun n =>
  if n = 1 then some (thunk1 addOp)
  else if n = 2 then some (thunk2 mulOp)
  else none

/-- A concrete target with non-void own return type for the C9 witness:
increments the object and returns the old value, which the void-shaped
delegate must discard. -/
def r0Op : Nat → Unit → Nat × Nat := fun n _ => (n + 1, n)

/-- A concrete compile-time-fixed callable with non-void return type for the
C9 witness. -/
def cg : Unit → Nat := fun _ => 42

/-- Code memory for the C9 witness: one void-result thunk per binding
macro. -/
def code9w : Code Nat Unit Unit := fun n =>
  if n = 1 then some (thunk1Void r0Op)
  else if n = 2 then some (thunk2Void r0Op)
  else if n = 3 then some (cthunk1Void cg)
  else if n = 4 then some (cthunk2Void cg)
  else none

/-- `void increment()` of the counter object in the concrete scenario:
`++count`. -/
def increment : Nat → Unit → Nat × Unit := fun n _ => (n + 1, ())

/-- Code memory of the concrete scenario: addresses 10, 11 and 12 hold the
`increment` thunks synthesized by three distinct `BIND2` expansion sites —
distinct functions, hence distinct function-pointer values, with identical
behaviour. -/
def code8 : Code Nat Unit Unit := fun n =>
  if n = 10 ∨ n = 11 ∨ n = 12 then some (thunk2Void increment) else none

/-- C2: Equality definition — for delegates `x` and `y` of the same shape,
`x == y` returns `true` iff `x`'s reference word equals `y`'s reference word
and `x`'s dispatch word equals `y`'s dispatch word (pointer identity). -/
theorem spec_c2_beq_iff_fields (x y : Delegate) :
    Delegate.beq x y = true ↔ (x.obj = y.obj ∧ x.f = y.f) := by
  simp [Delegate.beq]

/-- C3: Hash/equality consistency — `x == y` implies
`hash(x) == hash(y)` at every word size, and the hash is a deterministic
function of the two words `obj` and `f` alone: delegates agreeing on both
words hash equal. -/
theorem spec_c3_hash_eq_consistent (wordBytes : Nat) (x y : Delegate) :
    (Delegate.beq x y = true →
      hashDelegate wordBytes x = hashDelegate wordBytes y) ∧
    (x.obj = y.obj → x.f = y.f →
      hashDelegate wordBytes x = hashDelegate wordBytes y) := by
  obtain ⟨x1, x2⟩ := x
  obtain ⟨y1, y2⟩ := y
  constructor
  · intro h
    simp [Delegate.beq] at h
    simp [hashDelegate, h.1, h.2]
  · intro h1 h2
    simp only at h1 h2
    simp [hashDelegate, h1, h2]

/-- C5 counterexample: the claimed representation invariant "every reachable
delegate has both words null or both words set" is false — the reachable
delegate `CBIND1` produces (thunk address 7, say) has a null reference word
and a set dispatch word. -/
theorem spec_c5_counterexample :
    ¬ (∀ d : Delegate, Reachable d →
        ((d.obj = 0 ∧ d.f = 0) ∨ (d.obj ≠ 0 ∧ d.f ≠ 0))) := by
  intro hall
  have h := hall (cbind1 7) (Reachable.ofCbind1 7 (by decide))
  simp [cbind1] at h

/-- C5 amended: every reachable delegate has either both words null (the
empty state) or its dispatch word set — the reference word may be null with
the dispatch set (the `CBIND` forms); no reachable delegate has its reference
word set while its dispatch word is null. -/
theorem spec_c5_amended (d : Delegate) (hr : Reachable d) :
    ((d.obj = 0 ∧ d.f = 0) ∨ d.f ≠ 0) ∧ (d.f = 0 → d.obj = 0) := by
  cases hr with
  | ofDefault => exact ⟨Or.inl ⟨rfl, rfl⟩, fun _ => rfl⟩
  | ofBind1 p tf hp htf => exact ⟨Or.inr htf, fun h => absurd h htf⟩
  | ofBind2 p tf hp htf => exact ⟨Or.inr htf, fun h => absurd h htf⟩
  | ofCbind1 tf htf => exact ⟨Or.inr htf, fun _ => rfl⟩
  | ofCbind2 tf htf => exact ⟨Or.inr htf, fun _ => rfl⟩

/-- C5 witness: the amended invariant at the concrete reachable delegate
`cbind1 7`. -/
theorem spec_c5_witness :
    (((cbind1 7).obj = 0 ∧ (cbind1 7).f = 0) ∨ (cbind1 7).f ≠ 0) ∧
    ((cbind1 7).f = 0 → (cbind1 7).obj = 0) :=
  spec_c5_amended (cbind1 7) (Reachable.ofCbind1 7 (by decide))

/-- C6 counterexample: the claim "`operator bool` is true iff both words are
set" is false — the reachable delegate `cbind1 7` reports valid while its
reference word is null. -/
theorem spec_c6_counterexample :
    ¬ (∀ d : Delegate, Reachable d →
        (Delegate.isValid d = true ↔ (d.obj ≠ 0 ∧ d.f ≠ 0))) := by
  intro hall
  have h := hall (cbind1 7) (Reachable.ofCbind1 7 (by decide))
  simp [cbind1, Delegate.isValid] at h

/-- C6 amended: `operator bool` returns true iff the dispatch word is set
(the reference word is not consulted); a default-constructed delegate reports
false, and every delegate produced by one of the four binding macros reports
true, so the empty delegate is distinguishable from any bound one by the
validity check alone. -/
theorem spec_c6_amended :
    (∀ d : Delegate, Delegate.isValid d = true ↔ d.f ≠ 0) ∧
    Delegate.isValid Delegate.empty = false ∧
    (∀ p tf : Nat, tf ≠ 0 →
      Delegate.isValid (bind1 p tf) = true ∧
      Delegate.isValid (bind2 p tf) = true ∧
      Delegate.isValid (cbind1 tf) = true ∧
      Delegate.isValid (cbind2 tf) = true) := by
  refine ⟨fun d => ?_, rfl, fun p tf htf => ?_⟩
  · simp [Delegate.isValid]
  · simp [Delegate.isValid, bind1, bind2, cbind1, cbind2, htf]

/-- C7: Re-binding equality — re-evaluating the identical binding expression
(the same expansion site, hence the same thunk address `tf`) against the same
object (the same address `p`) yields delegates with identical words, which
`operator==` reports equal, for each of the four binding macros. -/
theorem spec_c7_rebind_eq (p tf : Nat) :
    Delegate.beq (bind1 p tf) (bind1 p tf) = true ∧
    Delegate.beq (bind2 p tf) (bind2 p tf) = true ∧
    Delegate.beq (cbind1 tf) (cbind1 tf) = true ∧
    Delegate.beq (cbind2 tf) (cbind2 tf) = true := by
  simp [Delegate.beq]

/-- C10: the validity check depends only on the dispatch word — delegates
agreeing on `f` convert to the same `bool` whatever their reference words —
and every delegate a `CBIND` form produces stores a null reference word with
a nonzero thunk pointer, hence reports valid. -/
theorem spec_c10_valid_dispatch_only :
    (∀ d : Delegate, Delegate.isValid d = true ↔ d.f ≠ 0) ∧
    (∀ o1 o2 tf : Nat,
      Delegate.isValid ⟨o1, tf⟩ = Delegate.isValid ⟨o2, tf⟩) ∧
    (∀ tf : Nat, tf ≠ 0 →
      (cbind1 tf).obj = 0 ∧ (cbind2 tf).obj = 0 ∧
      Delegate.isValid (cbind1 tf) = true ∧
      Delegate.isValid (cbind2 tf) = true) := by
  refine ⟨fun d => ?_, fun o1 o2 tf => rfl, fun tf htf => ?_⟩
  · simp [Delegate.isValid]
  · simp [Delegate.isValid, cbind1, cbind2, htf]

/-- C1: Round-trip invocation — for a delegate produced by the
direct-callable bind `BIND1(o)` (object at address `p`, thunk installed at
`tf1`), invoking it equals exactly one direct call `o(args...)`: same result
and same heap effect; likewise `BIND2(o, memfn)` equals `o.memfn(args...)`
directly. -/
theorem spec_c1_roundtrip {O A R : Type} (callOp memOp : O → A → O × R)
    (p tf1 tf2 : Nat) (code : Code O A R) (hp : Heap O) (a : A)
    (h1 : code tf1 = some (thunk1 callOp))
    (h2 : code tf2 = some (thunk2 memOp)) :
    Delegate.invoke code (bind1 p tf1) hp a = some (directCall callOp p hp a) ∧
    Delegate.invoke code (bind2 p tf2) hp a = some (directCall memOp p hp a) := by
  constructor
  · simp [Delegate.invoke, bind1, h1, thunk1, directCall]
  · simp [Delegate.invoke, bind2, h2, thunk2, directCall]

/-- C1 witness: the round trip at the concrete object address 5, argument 3,
for both the call-operator bind and the member bind. -/
theorem spec_c1_witness :
    Delegate.invoke code1w (bind1 5 1) heapZero 3
      = some (directCall addOp 5 heapZero 3) ∧
    Delegate.invoke code1w (bind2 5 2) heapZero 3
      = some (directCall mulOp 5 heapZero 3) :=
  spec_c1_roundtrip addOp mulOp 5 1 2 code1w heapZero 3 rfl rfl

/-- C4: the call path has zero validity checks — whenever the dispatch word
designates a thunk, invocation is well-defined and is exactly the call
`dispatch(reference, args...)`; invocation is undefined exactly when the
dispatch word designates no code, and in particular invoking an empty
delegate (null dispatch word, which designates no code) is undefined — the
null-dispatch case is the only failure mode and is unreachable when the
delegate is non-empty. -/
theorem spec_c4_call_path {O A R : Type} (code : Code O A R) (d : Delegate)
    (hp : Heap O) (a : A) :
    (∀ t : ThunkFun O A R, code d.f = some t →
      Delegate.invoke code d hp a = some (t d.obj hp a)) ∧
    (d.f = 0 → code 0 = none → Delegate.invoke code d hp a = none) ∧
    (Delegate.invoke code d hp a = none ↔ code d.f = none) := by
  refine ⟨fun t ht => ?_, fun h0 hc => ?_, ?_⟩
  · simp [Delegate.invoke, ht]
  · simp [Delegate.invoke, h0, hc]
  · unfold Delegate.invoke
    cases code d.f <;> simp

/-- C8 counterexample: thunk addresses 10 and 11 both hold the `increment`
thunk of a `BIND2(counter_object, increment)` expansion, yet the two
delegates bound to the same counter object (address 1) through these two
separately written binding expressions compare unequal — the claim says the
comparison evaluates true, but `operator==` compares the distinct thunk
addresses. -/
theorem spec_c8_counterexample :
    code8 10 = some (thunk2Void increment) ∧
    code8 11 = some (thunk2Void increment) ∧
    Delegate.beq (bind2 1 10) (bind2 1 11) = false :=
  ⟨rfl, rfl, by decide⟩

/-- C8 amended: after `h = BIND2(counter_object, increment)` (counter at
address 1, thunk at 10), `h(); h();` leaves the counter incremented exactly
twice and every other address unchanged; `h` compares equal to the delegate
obtained by re-evaluating the same binding expression (same thunk address),
and compares unequal to the same binding against a distinct counter object
(address 2); a separately written binding expression against the same object
yields a distinct thunk address and is not guaranteed to compare equal. -/
theorem spec_c8_amended :
    (∃ s : Heap Nat × Unit,
      invokeTwice code8 (bind2 1 10) heapZero () = some s ∧
      s.1 1 = 2 ∧ ∀ q : Nat, q ≠ 1 → s.1 q = heapZero q) ∧
    Delegate.beq (bind2 1 10) (bind2 1 10) = true ∧
    Delegate.beq (bind2 1 10) (bind2 2 12) = false := by
  refine ⟨⟨(updateHeap (updateHeap heapZero 1 1) 1 2, ()), rfl, rfl, ?_⟩,
    by decide, by decide⟩
  intro q hq
  simp [updateHeap, heapZero, hq]

/-- C9: Void-result discarding — a target whose own return type `R0` is
non-void, bound by any of the four strategies into a delegate whose declared
result is void, is called exactly once on invocation (the heap effect equals
that of one direct call) and its result is discarded (the delegate yields the
unit result), without error. -/
theorem spec_c9_void_discard {O A R0 : Type} (callOp memOp : O → A → O × R0)
    (g1 g2 : A → R0) (p tf1 tf2 tf3 tf4 : Nat) (code : Code O A Unit)
    (hp : Heap O) (a : A)
    (h1 : code tf1 = some (thunk1Void callOp))
    (h2 : code tf2 = some (thunk2Void memOp))
    (h3 : code tf3 = some (cthunk1Void g1))
    (h4 : code tf4 = some (cthunk2Void g2)) :
    Delegate.invoke code (bind1 p tf1) hp a
      = some ((directCall callOp p hp a).1, ()) ∧
    Delegate.invoke code (bind2 p tf2) hp a
      = some ((directCall memOp p hp a).1, ()) ∧
    Delegate.invoke code (cbind1 tf3) hp a = some (hp, ()) ∧
    Delegate.invoke code (cbind2 tf4) hp a = some (hp, ()) := by
  refine ⟨?_, ?_, ?_, ?_⟩
  · simp [Delegate.invoke, bind1, h1, thunk1Void, directCall]
  · simp [Delegate.invoke, bind2, h2, thunk2Void, directCall]
  · simp [Delegate.invoke, cbind1, h3, cthunk1Void]
  · simp [Delegate.invoke, cbind2, h4, cthunk2Void]

/-- C9 witness: the void-shaped delegate discards the concrete target's
`Nat` result under each of the four binding strategies. -/
theorem spec_c9_witness :
    Delegate.invoke code9w (bind1 5 1) heapZero ()
      = some ((directCall r0Op 5 heapZero ()).1, ()) ∧
    Delegate.invoke code9w (bind2 5 2) heapZero ()
      = some ((directCall r0Op 5 heapZero ()).1, ()) ∧
    Delegate.invoke code9w (cbind1 3) heapZero () = some (heapZero, ()) ∧
    Delegate.invoke code9w (cbind2 4) heapZero () = some (heapZero, ()) :=
  spec_c9_void_discard r0Op r0Op cg cg 5 1 2 3 4 code9w heapZero ()
    rfl rfl rfl rfl
